import Mathlib

/-!
Shallow embedding of `src/src/subrating.c` (zmk-softdevice-controller):
an activity-driven tiered link-subrating controller.

The controller keeps a current tier (ACTIVE / IDLE / DORMANT) and a single
delayable dormant timer.  Activity events map to tier transitions via
`subrating_activity_listener`; `set_tier` installs the tier parameters as the
stack default and broadcasts a subrate request to every central+connected LE
connection.  Stack calls (`bt_conn_le_subrate_set_defaults`,
`bt_conn_le_subrate_request`) and log statements are modelled as an effect
trace; the per-connection request result is supplied by an environment
function `errOf`.  Time and the k_work delayable timer are modelled by a
deterministic small-step semantics (`stepState`): elapsing at least the
remaining delay of an armed timer runs `dormant_timer_handler`.
-/

namespace Subrating

/-- Build-time configuration surface (the CONFIG_ZMK_BLE_SUBRATE_* Kconfig
symbols): per-tier min/max/continuation-number/max-latency, the shared
supervision timeout, and the dormant delay in milliseconds. -/
structure Config where
  active_min : Nat
  active_max : Nat
  active_cn : Nat
  idle_min : Nat
  idle_max : Nat
  idle_cn : Nat
  idle_max_latency : Nat
  dormant_min : Nat
  dormant_max : Nat
  dormant_cn : Nat
  dormant_max_latency : Nat
  timeout : Nat
  dormant_delay_ms : Nat
deriving DecidableEq, Repr

/-- struct bt_conn_le_subrate_param. -/
structure SubrateParam where
  subrate_min : Nat
  subrate_max : Nat
  max_latency : Nat
  continuation_number : Nat
  supervision_timeout : Nat
deriving DecidableEq, Repr

/-- The static `active_params` table entry (max_latency is hard-coded 0). -/
def active_params (cfg : Config) : SubrateParam :=
  { subrate_min := cfg.active_min
    subrate_max := cfg.active_max
    max_latency := 0
    continuation_number := cfg.active_cn
    supervision_timeout := cfg.timeout }

/-- The static `idle_params` table entry. -/
def idle_params (cfg : Config) : SubrateParam :=
  { subrate_min := cfg.idle_min
    subrate_max := cfg.idle_max
    max_latency := cfg.idle_max_latency
    continuation_number := cfg.idle_cn
    supervision_timeout := cfg.timeout }

/-- The static `dormant_params` table entry. -/
def dormant_params (cfg : Config) : SubrateParam :=
  { subrate_min := cfg.dormant_min
    subrate_max := cfg.dormant_max
    max_latency := cfg.dormant_max_latency
    continuation_number := cfg.dormant_cn
    supervision_timeout := cfg.timeout }

/-- enum subrate_tier. -/
inductive Tier
  | TIER_ACTIVE
  | TIER_IDLE
  | TIER_DORMANT
deriving DecidableEq, Repr

/-- bt_conn role as reported by bt_conn_get_info. -/
inductive ConnRole
  | central
  | peripheral
deriving DecidableEq, Repr

/-- bt_conn connectivity state as reported by bt_conn_get_info. -/
inductive ConnState
  | disconnected
  | connecting
  | connected
  | disconnecting
deriving DecidableEq, Repr

/-- A live LE connection as seen through bt_conn_get_info. -/
structure Conn where
  id : Nat
  role : ConnRole
  state : ConnState
deriving DecidableEq, Repr

/-- Observable actions the module performs against the stack / logger. -/
inductive Effect
  | setDefaults (p : SubrateParam)
  | subrateRequest (connId : Nat) (p : SubrateParam)
  | logInf
  | logWrn
  | logErr
deriving DecidableEq, Repr

/-- Zephyr errno value EALREADY. -/
def EALREADY : Int := 120

/-- Zephyr errno value EINVAL. -/
def EINVAL : Int := 22

/-- Zephyr errno value ENOTSUP. -/
def ENOTSUP : Int := 134

/-- Controller singleton state: `current_tier` plus the dormant k_work
delayable, modelled as `none` (unarmed) or `some r` (armed, fires once `r`
more milliseconds elapse with no intervening cancel). -/
structure ControllerState where
  current_tier : Tier
  dormant_timer : Option Nat
deriving DecidableEq, Repr

/-- Parameter set selected by the switch in set_tier. -/
def tierParams (cfg : Config) : Tier → SubrateParam
  | Tier.TIER_ACTIVE => active_params cfg
  | Tier.TIER_IDLE => idle_params cfg
  | Tier.TIER_DORMANT => dormant_params cfg

/-- apply_subrate_to_conn: issue bt_conn_le_subrate_request only on a
central+connected connection; the environment `errOf` gives the return code of the request; nonzero codes other than -EALREADY produce a warning log. -/
def apply_subrate_to_conn (errOf : Nat → Int) (conn : Conn) (params : SubrateParam) :
    List Effect :=
  if conn.role = ConnRole.central ∧ conn.state = ConnState.connected then
    if errOf conn.id ≠ 0 ∧ errOf conn.id ≠ -EALREADY then
      [Effect.subrateRequest conn.id params, Effect.logWrn]
    else
      [Effect.subrateRequest conn.id params]
  else
    []

/-- bt_conn_foreach(BT_CONN_TYPE_LE, apply_subrate_to_conn, params):
the concatenated effects of applying the tier parameters to each live
connection in order. -/
def broadcast_requests (errOf : Nat → Int) (conns : List Conn) (params : SubrateParam) :
    List Effect :=
  match conns with
  | [] => []
  | c :: rest => apply_subrate_to_conn errOf c params ++ broadcast_requests errOf rest params

/-- set_tier: no-op when the target equals current_tier; otherwise record the
new tier, log, install the tier parameters as the stack default, and walk the
live connections. -/
def set_tier (cfg : Config) (errOf : Nat → Int) (conns : List Conn) (tier : Tier)
    (s : ControllerState) : ControllerState × List Effect :=
  if tier = s.current_tier then
    (s, [])
  else
    ({ s with current_tier := tier },
      Effect.logInf :: Effect.setDefaults (tierParams cfg tier) ::
        broadcast_requests errOf conns (tierParams cfg tier))

/-- k_work_cancel_delayable(&dormant_work). -/
def cancel_dormant (s : ControllerState) : ControllerState :=
  { s with dormant_timer := none }

/-- k_work_schedule(&dormant_work, K_MSEC(SUBRATE_DORMANT_DELAY_MS)). -/
def arm_dormant (cfg : Config) (s : ControllerState) : ControllerState :=
  { s with dormant_timer := some cfg.dormant_delay_ms }

/-- dormant_timer_handler: runs set_tier(TIER_DORMANT). -/
def dormant_timer_handler (cfg : Config) (errOf : Nat → Int) (conns : List Conn)
    (s : ControllerState) : ControllerState × List Effect :=
  set_tier cfg errOf conns Tier.TIER_DORMANT s

/-- subrate_active: cancel the dormant timer, then set_tier(TIER_ACTIVE). -/
def subrate_active (cfg : Config) (errOf : Nat → Int) (conns : List Conn)
    (s : ControllerState) : ControllerState × List Effect :=
  set_tier cfg errOf conns Tier.TIER_ACTIVE (cancel_dormant s)

/-- subrate_idle: cancel the dormant timer, set_tier(TIER_IDLE), then re-arm
the dormant timer for the full dormant delay. -/
def subrate_idle (cfg : Config) (errOf : Nat → Int) (conns : List Conn)
    (s : ControllerState) : ControllerState × List Effect :=
  let r := set_tier cfg errOf conns Tier.TIER_IDLE (cancel_dormant s)
  (arm_dormant cfg r.1, r.2)

/-- enum zmk_activity_state value ZMK_ACTIVITY_ACTIVE. -/
def ZMK_ACTIVITY_ACTIVE : Nat := 0

/-- enum zmk_activity_state value ZMK_ACTIVITY_IDLE. -/
def ZMK_ACTIVITY_IDLE : Nat := 1

/-- enum zmk_activity_state value ZMK_ACTIVITY_SLEEP. -/
def ZMK_ACTIVITY_SLEEP : Nat := 2

/-- subrating_activity_listener: `none` models an event for which
as_zmk_activity_state_changed returns NULL (not an activity event);
`some st` carries the raw activity-state value.  Returns the return code of the listener, the resulting controller state, and the emitted effects. -/
def subrating_activity_listener (cfg : Config) (errOf : Nat → Int) (conns : List Conn)
    (ev : Option Nat) (s : ControllerState) : Int × ControllerState × List Effect :=
  match ev with
  | none => (-ENOTSUP, s, [])
  | some st =>
    if st = ZMK_ACTIVITY_ACTIVE then
      let r := subrate_active cfg errOf conns s
      (0, r.1, r.2)
    else if st = ZMK_ACTIVITY_IDLE ∨ st = ZMK_ACTIVITY_SLEEP then
      let r := subrate_idle cfg errOf conns s
      (0, r.1, r.2)
    else
      (-EINVAL, s, [Effect.logWrn])

/-- zmk_sdc_subrating_init: attempt to install idle_params as the stack
default; `errDefaults` is the return code of that stack call.  On failure the
error is logged and returned; otherwise the configuration is logged and 0 is
returned. -/
def zmk_sdc_subrating_init (cfg : Config) (errDefaults : Int) : Int × List Effect :=
  if errDefaults ≠ 0 then
    (errDefaults, [Effect.setDefaults (idle_params cfg), Effect.logErr])
  else
    (0, [Effect.setDefaults (idle_params cfg), Effect.logInf])

/-- A system step: either an event delivered to the listener, or `d`
milliseconds elapsing with no delivered event. -/
inductive Step
  | deliver (ev : Option Nat)
  | elapse (d : Nat)
deriving DecidableEq, Repr

/-- Deterministic step semantics on the controller state: delivering an event
runs the listener; elapsing `d` ms decrements an armed timer, running
dormant_timer_handler when the remaining delay is reached. -/
def stepState (cfg : Config) (errOf : Nat → Int) (conns : List Conn)
    (s : ControllerState) : Step → ControllerState
  | Step.deliver ev => (subrating_activity_listener cfg errOf conns ev s).2.1
  | Step.elapse d =>
    match s.dormant_timer with
    | none => s
    | some r =>
      if r ≤ d then
        (dormant_timer_handler cfg errOf conns { s with dormant_timer := none }).1
      else
        { s with dormant_timer := some (r - d) }

/-- All states visited along a run, starting state included. -/
def runStates (cfg : Config) (errOf : Nat → Int) (conns : List Conn)
    (s : ControllerState) : List Step → List ControllerState
  | [] => [s]
  | a :: rest => s :: runStates cfg errOf conns (stepState cfg errOf conns s a) rest

/-- Final state of a run. -/
def runFinal (cfg : Config) (errOf : Nat → Int) (conns : List Conn)
    (s : ControllerState) (steps : List Step) : ControllerState :=
  steps.foldl (stepState cfg errOf conns) s

/-- Number of stack-default updates (protocol broadcasts) in an effect
trace. -/
def countBroadcasts : List Effect → Nat
  | [] => 0
  | Effect.setDefaults _ :: rest => countBroadcasts rest + 1
  | _ :: rest => countBroadcasts rest

/-- The run of claim C5: an IDLE event, then the given elapses, then an
ACTIVE event. -/
def idleThenActiveRun (ds : List Nat) : List Step :=
  Step.deliver (some ZMK_ACTIVITY_IDLE) ::
    (ds.map Step.elapse ++ [Step.deliver (some ZMK_ACTIVITY_ACTIVE)])

/-- Concrete configuration used in witnesses (a plausible Kconfig choice). -/
def testCfg : Config :=
  { active_min := 1, active_max := 4, active_cn := 1
    idle_min := 10, idle_max := 20, idle_cn := 2, idle_max_latency := 2
    dormant_min := 40, dormant_max := 100, dormant_cn := 4, dormant_max_latency := 4
    timeout := 400, dormant_delay_ms := 30000 }

/-- Environment in which every subrate request succeeds. -/
def testErr0 : Nat → Int := fun _ => 0

/-- Environment in which the request on connection 0 fails with a generic error
and every other request is rejected with -EALREADY. -/
def testErrFail : Nat → Int := fun i => if i = 0 then -5 else -EALREADY

/-- A mixed set of live connections used in witnesses. -/
def testConns : List Conn :=
  [{ id := 0, role := ConnRole.central, state := ConnState.connected },
   { id := 1, role := ConnRole.peripheral, state := ConnState.connected },
   { id := 2, role := ConnRole.central, state := ConnState.disconnected }]

/-- The boot state: IDLE tier, dormant timer unarmed. -/
def testState : ControllerState :=
  { current_tier := Tier.TIER_IDLE, dormant_timer := none }

/-! Helper lemmas about the effect trace of a broadcast. -/

theorem apply_effect_cases (errOf : Nat → Int) (c : Conn) (p : SubrateParam) (e : Effect)
    (h : e ∈ apply_subrate_to_conn errOf c p) :
    e = Effect.subrateRequest c.id p ∨ e = Effect.logWrn := by
  unfold apply_subrate_to_conn at h
  split at h
  · split at h <;> simp_all
  · simp at h

theorem apply_request_inv (errOf : Nat → Int) (c : Conn) (p : SubrateParam)
    (cid : Nat) (q : SubrateParam)
    (h : Effect.subrateRequest cid q ∈ apply_subrate_to_conn errOf c p) :
    cid = c.id ∧ q = p ∧ c.role = ConnRole.central ∧ c.state = ConnState.connected := by
  unfold apply_subrate_to_conn at h
  split at h
  · rename_i hq
    split at h <;> simp_all
  · simp at h

theorem apply_mem_of_qualified (errOf : Nat → Int) (c : Conn) (p : SubrateParam)
    (h1 : c.role = ConnRole.central) (h2 : c.state = ConnState.connected) :
    Effect.subrateRequest c.id p ∈ apply_subrate_to_conn errOf c p := by
  unfold apply_subrate_to_conn
  rw [if_pos ⟨h1, h2⟩]
  split <;> simp

theorem countBroadcasts_append (l1 l2 : List Effect) :
    countBroadcasts (l1 ++ l2) = countBroadcasts l1 + countBroadcasts l2 := by
  induction l1 with
  | nil => simp [countBroadcasts]
  | cons e rest ih =>
    cases e with
    | setDefaults p =>
      simp [countBroadcasts, ih]
      omega
    | subrateRequest cid p => simp [countBroadcasts, ih]
    | logInf => simp [countBroadcasts, ih]
    | logWrn => simp [countBroadcasts, ih]
    | logErr => simp [countBroadcasts, ih]

theorem countBroadcasts_apply (errOf : Nat → Int) (c : Conn) (p : SubrateParam) :
    countBroadcasts (apply_subrate_to_conn errOf c p) = 0 := by
  unfold apply_subrate_to_conn
  split
  · split <;> simp [countBroadcasts]
  · simp [countBroadcasts]

theorem countBroadcasts_broadcast (errOf : Nat → Int) (conns : List Conn) (p : SubrateParam) :
    countBroadcasts (broadcast_requests errOf conns p) = 0 := by
  induction conns with
  | nil => simp [broadcast_requests, countBroadcasts]
  | cons c rest ih =>
    simp [broadcast_requests, countBroadcasts_append, countBroadcasts_apply, ih]

theorem broadcast_request_inv (errOf : Nat → Int) (conns : List Conn) (p : SubrateParam)
    (cid : Nat) (q : SubrateParam)
    (h : Effect.subrateRequest cid q ∈ broadcast_requests errOf conns p) :
    ∃ c ∈ conns, c.id = cid ∧ q = p ∧ c.role = ConnRole.central ∧
      c.state = ConnState.connected := by
  induction conns with
  | nil => simp [broadcast_requests] at h
  | cons c rest ih =>
    simp only [broadcast_requests, List.mem_append] at h
    rcases h with h | h
    · have := apply_request_inv errOf c p cid q h
      exact ⟨c, by simp, this.1.symm, this.2.1, this.2.2.1, this.2.2.2⟩
    · obtain ⟨c', hc', rest'⟩ := ih h
      exact ⟨c', by simp [hc'], rest'⟩

theorem broadcast_mem_of_qualified (errOf : Nat → Int) (conns : List Conn) (p : SubrateParam)
    (c : Conn) (hc : c ∈ conns) (h1 : c.role = ConnRole.central)
    (h2 : c.state = ConnState.connected) :
    Effect.subrateRequest c.id p ∈ broadcast_requests errOf conns p := by
  induction conns with
  | nil => simp at hc
  | cons c0 rest ih =>
    simp only [List.mem_cons] at hc
    simp only [broadcast_requests, List.mem_append]
    rcases hc with rfl | hc
    · exact Or.inl (apply_mem_of_qualified errOf c p h1 h2)
    · exact Or.inr (ih hc)

/-! Helper lemmas about set_tier and the listener. -/

theorem set_tier_eq (cfg : Config) (errOf : Nat → Int) (conns : List Conn) (tier : Tier)
    (s : ControllerState) (h : tier = s.current_tier) :
    set_tier cfg errOf conns tier s = (s, []) := by
  simp [set_tier, h]

theorem set_tier_ne (cfg : Config) (errOf : Nat → Int) (conns : List Conn) (tier : Tier)
    (s : ControllerState) (h : tier ≠ s.current_tier) :
    set_tier cfg errOf conns tier s =
      ({ s with current_tier := tier },
        Effect.logInf :: Effect.setDefaults (tierParams cfg tier) ::
          broadcast_requests errOf conns (tierParams cfg tier)) := by
  simp [set_tier, h]

theorem set_tier_tier (cfg : Config) (errOf : Nat → Int) (conns : List Conn) (tier : Tier)
    (s : ControllerState) :
    (set_tier cfg errOf conns tier s).1.current_tier = tier := by
  unfold set_tier
  split <;> simp_all

theorem set_tier_timer (cfg : Config) (errOf : Nat → Int) (conns : List Conn) (tier : Tier)
    (s : ControllerState) :
    (set_tier cfg errOf conns tier s).1.dormant_timer = s.dormant_timer := by
  unfold set_tier
  split <;> simp

theorem subrate_idle_state (cfg : Config) (errOf : Nat → Int) (conns : List Conn)
    (s : ControllerState) :
    (subrate_idle cfg errOf conns s).1 =
      { current_tier := Tier.TIER_IDLE, dormant_timer := some cfg.dormant_delay_ms } := by
  unfold subrate_idle arm_dormant
  have h1 := set_tier_tier cfg errOf conns Tier.TIER_IDLE (cancel_dormant s)
  cases hset : set_tier cfg errOf conns Tier.TIER_IDLE (cancel_dormant s) with
  | mk a b =>
    rw [hset] at h1
    cases a
    simp_all

theorem subrate_active_state (cfg : Config) (errOf : Nat → Int) (conns : List Conn)
    (s : ControllerState) :
    (subrate_active cfg errOf conns s).1 =
      { current_tier := Tier.TIER_ACTIVE, dormant_timer := none } := by
  unfold subrate_active
  have h1 := set_tier_tier cfg errOf conns Tier.TIER_ACTIVE (cancel_dormant s)
  have h2 := set_tier_timer cfg errOf conns Tier.TIER_ACTIVE (cancel_dormant s)
  cases hset : set_tier cfg errOf conns Tier.TIER_ACTIVE (cancel_dormant s) with
  | mk a b =>
    rw [hset] at h1 h2
    cases a
    simp_all [cancel_dormant]

theorem listener_active_eq (cfg : Config) (errOf : Nat → Int) (conns : List Conn)
    (s : ControllerState) :
    subrating_activity_listener cfg errOf conns (some ZMK_ACTIVITY_ACTIVE) s =
      (0, (subrate_active cfg errOf conns s).1, (subrate_active cfg errOf conns s).2) := by
  simp [subrating_activity_listener]

theorem listener_idle_eq (cfg : Config) (errOf : Nat → Int) (conns : List Conn)
    (s : ControllerState) (ev : Option Nat)
    (hev : ev = some ZMK_ACTIVITY_IDLE ∨ ev = some ZMK_ACTIVITY_SLEEP) :
    subrating_activity_listener cfg errOf conns ev s =
      (0, (subrate_idle cfg errOf conns s).1, (subrate_idle cfg errOf conns s).2) := by
  rcases hev with rfl | rfl <;>
    simp [subrating_activity_listener, ZMK_ACTIVITY_ACTIVE, ZMK_ACTIVITY_IDLE,
      ZMK_ACTIVITY_SLEEP]

theorem step_deliver_idle (cfg : Config) (errOf : Nat → Int) (conns : List Conn)
    (s : ControllerState) :
    stepState cfg errOf conns s (Step.deliver (some ZMK_ACTIVITY_IDLE)) =
      { current_tier := Tier.TIER_IDLE, dormant_timer := some cfg.dormant_delay_ms } := by
  simp [stepState, listener_idle_eq cfg errOf conns s _ (Or.inl rfl), subrate_idle_state]

theorem step_deliver_active (cfg : Config) (errOf : Nat → Int) (conns : List Conn)
    (s : ControllerState) :
    stepState cfg errOf conns s (Step.deliver (some ZMK_ACTIVITY_ACTIVE)) =
      { current_tier := Tier.TIER_ACTIVE, dormant_timer := none } := by
  simp [stepState, listener_active_eq, subrate_active_state]

theorem step_elapse_small (cfg : Config) (errOf : Nat → Int) (conns : List Conn)
    (s : ControllerState) (r d : Nat) (hr : s.dormant_timer = some r) (hd : d < r) :
    stepState cfg errOf conns s (Step.elapse d) =
      { s with dormant_timer := some (r - d) } := by
  simp [stepState, hr, Nat.not_le.mpr hd]

/-- Core run lemma: from a state in the IDLE tier with the dormant timer armed
at `r`, elapsing strictly less than `r` in total and then receiving an ACTIVE
event never passes through the DORMANT tier and ends in ACTIVE, unarmed. -/
theorem idle_elapse_then_active (cfg : Config) (errOf : Nat → Int) (conns : List Conn) :
    ∀ (ds : List Nat) (r : Nat) (s : ControllerState),
      s.current_tier = Tier.TIER_IDLE → s.dormant_timer = some r → ds.sum < r →
      (∀ t ∈ runStates cfg errOf conns s
          (ds.map Step.elapse ++ [Step.deliver (some ZMK_ACTIVITY_ACTIVE)]),
        t.current_tier ≠ Tier.TIER_DORMANT) ∧
      runFinal cfg errOf conns s (ds.map Step.elapse ++ [Step.deliver (some ZMK_ACTIVITY_ACTIVE)]) =
        { current_tier := Tier.TIER_ACTIVE, dormant_timer := none } := by
  intro ds
  induction ds with
  | nil =>
    intro r s h1 h2 h3
    constructor
    · intro t ht
      simp only [List.map_nil, List.nil_append, runStates, List.mem_cons,
        List.mem_singleton, List.not_mem_nil, or_false] at ht
      rcases ht with rfl | ht
      · simp [h1]
      · rw [step_deliver_active] at ht
        subst ht
        simp
    · simp [runFinal, step_deliver_active]
  | cons d rest ih =>
    intro r s h1 h2 h3
    have hd : d < r := by
      have : d ≤ d + rest.sum := Nat.le_add_right d rest.sum
      simp only [List.sum_cons] at h3
      omega
    have hstep := step_elapse_small cfg errOf conns s r d h2 hd
    have hsum : rest.sum < r - d := by
      simp only [List.sum_cons] at h3
      omega
    have ihr := ih (r - d) { s with dormant_timer := some (r - d) } h1 rfl hsum
    constructor
    · intro t ht
      simp only [List.map_cons, List.cons_append, runStates, hstep, List.mem_cons] at ht
      rcases ht with rfl | ht
      · simp [h1]
      · exact ihr.1 t ht
    · simp only [List.map_cons, List.cons_append, runFinal, List.foldl_cons, hstep]
      exact ihr.2

theorem runFinal_cons (cfg : Config) (errOf : Nat → Int) (conns : List Conn)
    (s : ControllerState) (a : Step) (rest : List Step) :
    runFinal cfg errOf conns s (a :: rest) =
      runFinal cfg errOf conns (stepState cfg errOf conns s a) rest := rfl

theorem runStates_cons (cfg : Config) (errOf : Nat → Int) (conns : List Conn)
    (s : ControllerState) (a : Step) (rest : List Step) :
    runStates cfg errOf conns s (a :: rest) =
      s :: runStates cfg errOf conns (stepState cfg errOf conns s a) rest := rfl

theorem listener_ret_zero_iff (cfg : Config) (errOf : Nat → Int) (conns : List Conn)
    (ev : Option Nat) (s : ControllerState) :
    (subrating_activity_listener cfg errOf conns ev s).1 = 0 ↔
      ev = some ZMK_ACTIVITY_ACTIVE ∨ ev = some ZMK_ACTIVITY_IDLE ∨
        ev = some ZMK_ACTIVITY_SLEEP := by
  rcases ev with _ | st
  · simp [subrating_activity_listener, ENOTSUP]
  · by_cases h0 : st = ZMK_ACTIVITY_ACTIVE
    · simp [subrating_activity_listener, h0]
    · by_cases h1 : st = ZMK_ACTIVITY_IDLE
      · simp [subrating_activity_listener, h0, h1, ZMK_ACTIVITY_ACTIVE, ZMK_ACTIVITY_IDLE]
      · by_cases h2 : st = ZMK_ACTIVITY_SLEEP
        · simp [subrating_activity_listener, h0, h1, h2, ZMK_ACTIVITY_ACTIVE,
            ZMK_ACTIVITY_SLEEP]
        · simp [subrating_activity_listener, h0, h1, h2, EINVAL]

theorem listener_nonzero_state (cfg : Config) (errOf : Nat → Int) (conns : List Conn)
    (ev : Option Nat) (s : ControllerState)
    (h : (subrating_activity_listener cfg errOf conns ev s).1 ≠ 0) :
    (subrating_activity_listener cfg errOf conns ev s).2.1 = s := by
  rcases ev with _ | st
  · simp [subrating_activity_listener]
  · by_cases h0 : st = ZMK_ACTIVITY_ACTIVE
    · exfalso
      apply h
      simp [subrating_activity_listener, h0]
    · by_cases h1 : st = ZMK_ACTIVITY_IDLE
      · exfalso
        apply h
        simp [subrating_activity_listener, h0, h1, ZMK_ACTIVITY_ACTIVE, ZMK_ACTIVITY_IDLE]
      · by_cases h2 : st = ZMK_ACTIVITY_SLEEP
        · exfalso
          apply h
          simp [subrating_activity_listener, h0, h1, h2, ZMK_ACTIVITY_ACTIVE,
            ZMK_ACTIVITY_SLEEP]
        · simp [subrating_activity_listener, h0, h1, h2]

/-- C1: set_tier is a no-op when the target equals the current tier (no
default update, no requests, state unchanged); after an effective tier
change, a second call with the same tier is a no-op, so the pair of calls
issues exactly one protocol broadcast. -/
theorem C1_set_tier_idempotent (cfg : Config) (errOf : Nat → Int) (conns : List Conn)
    (tier : Tier) (s : ControllerState) :
    (tier = s.current_tier → set_tier cfg errOf conns tier s = (s, [])) ∧
    (tier ≠ s.current_tier →
      set_tier cfg errOf conns tier (set_tier cfg errOf conns tier s).1 =
        ((set_tier cfg errOf conns tier s).1, []) ∧
      countBroadcasts ((set_tier cfg errOf conns tier s).2 ++
        (set_tier cfg errOf conns tier (set_tier cfg errOf conns tier s).1).2) = 1) := by
  constructor
  · intro h
    exact set_tier_eq cfg errOf conns tier s h
  · intro h
    have ht := set_tier_tier cfg errOf conns tier s
    have h2 := set_tier_eq cfg errOf conns tier (set_tier cfg errOf conns tier s).1 ht.symm
    refine ⟨h2, ?_⟩
    rw [h2, set_tier_ne cfg errOf conns tier s h]
    simp [countBroadcasts_append, countBroadcasts, countBroadcasts_broadcast]

/-- Witness for C1: an effective IDLE→ACTIVE change followed by a repeated
request for ACTIVE yields exactly one broadcast. -/
theorem C1_set_tier_idempotent_witness :
    set_tier testCfg testErr0 testConns Tier.TIER_ACTIVE
        (set_tier testCfg testErr0 testConns Tier.TIER_ACTIVE testState).1 =
      ((set_tier testCfg testErr0 testConns Tier.TIER_ACTIVE testState).1, []) ∧
    countBroadcasts ((set_tier testCfg testErr0 testConns Tier.TIER_ACTIVE testState).2 ++
      (set_tier testCfg testErr0 testConns Tier.TIER_ACTIVE
        (set_tier testCfg testErr0 testConns Tier.TIER_ACTIVE testState).1).2) = 1 :=
  (C1_set_tier_idempotent testCfg testErr0 testConns Tier.TIER_ACTIVE testState).2
    (by decide)

/-- C2: a tier broadcast issues subrate requests only to connections whose
role is central and whose state is connected; conversely every qualifying
live connection is targeted on an effective tier change. -/
theorem C2_broadcast_scope (cfg : Config) (errOf : Nat → Int) (conns : List Conn)
    (tier : Tier) (s : ControllerState) (cid : Nat) (q : SubrateParam) :
    (Effect.subrateRequest cid q ∈ (set_tier cfg errOf conns tier s).2 →
      ∃ c ∈ conns, c.id = cid ∧ c.role = ConnRole.central ∧
        c.state = ConnState.connected) ∧
    (tier ≠ s.current_tier → ∀ c ∈ conns, c.role = ConnRole.central →
      c.state = ConnState.connected →
      Effect.subrateRequest c.id (tierParams cfg tier) ∈
        (set_tier cfg errOf conns tier s).2) := by
  constructor
  · intro h
    unfold set_tier at h
    split at h
    · simp at h
    · simp only [List.mem_cons] at h
      rcases h with h | h | h
      · exact absurd h (by simp)
      · exact absurd h (by simp)
      · obtain ⟨c, hc, hid, _, h3, h4⟩ := broadcast_request_inv errOf conns _ cid q h
        exact ⟨c, hc, hid, h3, h4⟩
  · intro hne c hc h1 h2
    rw [set_tier_ne cfg errOf conns tier s hne]
    simp only [List.mem_cons]
    exact Or.inr (Or.inr (broadcast_mem_of_qualified errOf conns _ c hc h1 h2))

/-- Witness for C2: the central+connected connection 0 receives the request
on an effective change to ACTIVE. -/
theorem C2_broadcast_scope_witness :
    Effect.subrateRequest 0 (tierParams testCfg Tier.TIER_ACTIVE) ∈
      (set_tier testCfg testErr0 testConns Tier.TIER_ACTIVE testState).2 :=
  (C2_broadcast_scope testCfg testErr0 testConns Tier.TIER_ACTIVE testState 0
      (tierParams testCfg Tier.TIER_ACTIVE)).2 (by decide)
    { id := 0, role := ConnRole.central, state := ConnState.connected } (by decide) rfl rfl

/-- C3: after processing an ACTIVE activity event, the controller is in the
ACTIVE tier with the dormant timer unarmed, for every prior state. -/
theorem C3_active_event (cfg : Config) (errOf : Nat → Int) (conns : List Conn)
    (s : ControllerState) :
    (subrating_activity_listener cfg errOf conns (some ZMK_ACTIVITY_ACTIVE) s).2.1.current_tier =
        Tier.TIER_ACTIVE ∧
    (subrating_activity_listener cfg errOf conns (some ZMK_ACTIVITY_ACTIVE) s).2.1.dormant_timer =
        none := by
  rw [listener_active_eq]
  simp [subrate_active_state]

/-- C4: IDLE and ASLEEP events are processed identically, and the action is
exactly: cancel the dormant timer, set_tier(TIER_IDLE), then arm the dormant
timer for the dormant delay; for every prior state. -/
theorem C4_idle_asleep_identical (cfg : Config) (errOf : Nat → Int) (conns : List Conn)
    (s : ControllerState) :
    subrating_activity_listener cfg errOf conns (some ZMK_ACTIVITY_IDLE) s =
      subrating_activity_listener cfg errOf conns (some ZMK_ACTIVITY_SLEEP) s ∧
    subrating_activity_listener cfg errOf conns (some ZMK_ACTIVITY_IDLE) s =
      (0, arm_dormant cfg (set_tier cfg errOf conns Tier.TIER_IDLE (cancel_dormant s)).1,
        (set_tier cfg errOf conns Tier.TIER_IDLE (cancel_dormant s)).2) := by
  constructor
  · rw [listener_idle_eq cfg errOf conns s _ (Or.inl rfl),
      listener_idle_eq cfg errOf conns s _ (Or.inr rfl)]
  · rw [listener_idle_eq cfg errOf conns s _ (Or.inl rfl)]
    rfl

/-- C5: an IDLE event followed by elapses summing to less than the dormant
delay and then an ACTIVE event never passes through the DORMANT tier, and the
run ends in ACTIVE with the timer unarmed. -/
theorem C5_idle_debounce (cfg : Config) (errOf : Nat → Int) (conns : List Conn)
    (s : ControllerState) (ds : List Nat) (h : ds.sum < cfg.dormant_delay_ms) :
    (∀ t ∈ (runStates cfg errOf conns s (idleThenActiveRun ds)).tail,
      t.current_tier ≠ Tier.TIER_DORMANT) ∧
    runFinal cfg errOf conns s (idleThenActiveRun ds) =
      { current_tier := Tier.TIER_ACTIVE, dormant_timer := none } := by
  have hmain := idle_elapse_then_active cfg errOf conns ds cfg.dormant_delay_ms
    { current_tier := Tier.TIER_IDLE, dormant_timer := some cfg.dormant_delay_ms } rfl rfl h
  constructor
  · intro t ht
    unfold idleThenActiveRun at ht
    rw [runStates_cons, List.tail_cons, step_deliver_idle] at ht
    exact hmain.1 t ht
  · unfold idleThenActiveRun
    rw [runFinal_cons, step_deliver_idle]
    exact hmain.2

/-- Witness for C5: two elapses totalling 15000 ms (< 30000 ms) between IDLE
and ACTIVE end in the ACTIVE tier. -/
theorem C5_idle_debounce_witness :
    runFinal testCfg testErr0 testConns testState (idleThenActiveRun [10000, 5000]) =
      { current_tier := Tier.TIER_ACTIVE, dormant_timer := none } :=
  (C5_idle_debounce testCfg testErr0 testConns testState [10000, 5000] (by decide)).2

/-- C6: after an IDLE event followed by at least the dormant delay with no
further activity event, the armed dormant timer fires and the controller ends
in the DORMANT tier. -/
theorem C6_dormant_escalation (cfg : Config) (errOf : Nat → Int) (conns : List Conn)
    (s : ControllerState) (d : Nat) (h : cfg.dormant_delay_ms ≤ d) :
    runFinal cfg errOf conns s [Step.deliver (some ZMK_ACTIVITY_IDLE), Step.elapse d] =
      { current_tier := Tier.TIER_DORMANT, dormant_timer := none } := by
  rw [runFinal_cons, step_deliver_idle, runFinal_cons]
  simp [runFinal, stepState, h, dormant_timer_handler, set_tier]

/-- Witness for C6: waiting exactly the dormant delay after IDLE reaches
DORMANT. -/
theorem C6_dormant_escalation_witness :
    runFinal testCfg testErr0 testConns testState
        [Step.deliver (some ZMK_ACTIVITY_IDLE), Step.elapse 30000] =
      { current_tier := Tier.TIER_DORMANT, dormant_timer := none } :=
  C6_dormant_escalation testCfg testErr0 testConns testState 30000 (by decide)

/-- C7: a per-connection request rejected with -EALREADY is swallowed with no
log; any other nonzero error adds only a warning log; and regardless of the
error environment an effective tier change records the tier, keeps the
default installation in the trace, and still requests every qualifying
connection. -/
theorem C7_request_failure_handling (cfg : Config) (errOf : Nat → Int) (conns : List Conn)
    (tier : Tier) (s : ControllerState) (c : Conn) :
    (c.role = ConnRole.central → c.state = ConnState.connected →
      errOf c.id = -EALREADY →
      apply_subrate_to_conn errOf c (tierParams cfg tier) =
        [Effect.subrateRequest c.id (tierParams cfg tier)]) ∧
    (c.role = ConnRole.central → c.state = ConnState.connected →
      errOf c.id ≠ 0 → errOf c.id ≠ -EALREADY →
      apply_subrate_to_conn errOf c (tierParams cfg tier) =
        [Effect.subrateRequest c.id (tierParams cfg tier), Effect.logWrn]) ∧
    (tier ≠ s.current_tier →
      (set_tier cfg errOf conns tier s).1.current_tier = tier ∧
      Effect.setDefaults (tierParams cfg tier) ∈ (set_tier cfg errOf conns tier s).2 ∧
      (∀ c' ∈ conns, c'.role = ConnRole.central → c'.state = ConnState.connected →
        Effect.subrateRequest c'.id (tierParams cfg tier) ∈
          (set_tier cfg errOf conns tier s).2)) := by
  refine ⟨?_, ?_, ?_⟩
  · intro h1 h2 he
    simp [apply_subrate_to_conn, h1, h2, he]
  · intro h1 h2 he1 he2
    unfold apply_subrate_to_conn
    rw [if_pos ⟨h1, h2⟩, if_pos ⟨he1, he2⟩]
  · intro hne
    refine ⟨set_tier_tier cfg errOf conns tier s, ?_, ?_⟩
    · rw [set_tier_ne cfg errOf conns tier s hne]
      simp
    · intro c' hc' h1 h2
      rw [set_tier_ne cfg errOf conns tier s hne]
      simp only [List.mem_cons]
      exact Or.inr (Or.inr (broadcast_mem_of_qualified errOf conns _ c' hc' h1 h2))

/-- Witness for C7: the request on connection 0 fails with -5, which yields the
request plus exactly one warning log. -/
theorem C7_request_failure_handling_witness :
    apply_subrate_to_conn testErrFail
        { id := 0, role := ConnRole.central, state := ConnState.connected }
        (tierParams testCfg Tier.TIER_ACTIVE) =
      [Effect.subrateRequest 0 (tierParams testCfg Tier.TIER_ACTIVE), Effect.logWrn] :=
  (C7_request_failure_handling testCfg testErrFail testConns Tier.TIER_ACTIVE testState
      { id := 0, role := ConnRole.central, state := ConnState.connected }).2.1
    rfl rfl (by decide) (by decide)

/-- C8: the listener returns 0 exactly on ACTIVE, IDLE, or ASLEEP activity
values; any other event (non-activity events included) yields a nonzero
return code and leaves the controller state unchanged. -/
theorem C8_unsupported_event (cfg : Config) (errOf : Nat → Int) (conns : List Conn)
    (ev : Option Nat) (s : ControllerState) :
    ((subrating_activity_listener cfg errOf conns ev s).1 = 0 ↔
      ev = some ZMK_ACTIVITY_ACTIVE ∨ ev = some ZMK_ACTIVITY_IDLE ∨
        ev = some ZMK_ACTIVITY_SLEEP) ∧
    ((subrating_activity_listener cfg errOf conns ev s).1 ≠ 0 →
      (subrating_activity_listener cfg errOf conns ev s).2.1 = s) :=
  ⟨listener_ret_zero_iff cfg errOf conns ev s,
    listener_nonzero_state cfg errOf conns ev s⟩

/-- Witness for C8: the unrecognized activity value 7 leaves the state
unchanged. -/
theorem C8_unsupported_event_witness :
    (subrating_activity_listener testCfg testErr0 testConns (some 7) testState).2.1 =
      testState :=
  (C8_unsupported_event testCfg testErr0 testConns (some 7) testState).2 (by decide)

/-- C9: no failure is fatal: a failing default installation at init is
returned to the caller as an error code with no subrate request issued, a
listener failure returns an error code and leaves the state unchanged, and
per-connection request failures never prevent set_tier from recording the
target tier. -/
theorem C9_failures_nonfatal (cfg : Config) (eInit : Int) (errOf : Nat → Int)
    (conns : List Conn) (ev : Option Nat) (s : ControllerState) (tier : Tier)
    (cid : Nat) (q : SubrateParam) :
    (eInit ≠ 0 →
      (zmk_sdc_subrating_init cfg eInit).1 = eInit ∧
      Effect.subrateRequest cid q ∉ (zmk_sdc_subrating_init cfg eInit).2) ∧
    ((subrating_activity_listener cfg errOf conns ev s).1 ≠ 0 →
      (subrating_activity_listener cfg errOf conns ev s).2.1 = s) ∧
    (set_tier cfg errOf conns tier s).1.current_tier = tier := by
  refine ⟨?_, listener_nonzero_state cfg errOf conns ev s,
    set_tier_tier cfg errOf conns tier s⟩
  intro he
  constructor
  · simp [zmk_sdc_subrating_init, he]
  · simp [zmk_sdc_subrating_init, he]

/-- Witness for C9: a failing init with code -5 returns -5 and issues no
subrate request. -/
theorem C9_failures_nonfatal_witness :
    (zmk_sdc_subrating_init testCfg (-5)).1 = -5 ∧
    Effect.subrateRequest 0 (idle_params testCfg) ∉
      (zmk_sdc_subrating_init testCfg (-5)).2 :=
  (C9_failures_nonfatal testCfg (-5) testErr0 testConns none testState Tier.TIER_ACTIVE
      0 (idle_params testCfg)).1 (by decide)

/-- C10: when the controller is already in the IDLE tier, a further IDLE or
ASLEEP event issues no protocol traffic yet re-arms the dormant timer for the
full dormant delay, and elapsing less than the delay afterwards still leaves
the controller in the IDLE tier. -/
theorem C10_repeated_idle_rearms (cfg : Config) (errOf : Nat → Int) (conns : List Conn)
    (s : ControllerState) (ev : Option Nat)
    (hs : s.current_tier = Tier.TIER_IDLE)
    (hev : ev = some ZMK_ACTIVITY_IDLE ∨ ev = some ZMK_ACTIVITY_SLEEP) :
    subrating_activity_listener cfg errOf conns ev s =
      (0, { current_tier := Tier.TIER_IDLE, dormant_timer := some cfg.dormant_delay_ms },
        []) ∧
    (∀ d, d < cfg.dormant_delay_ms →
      (stepState cfg errOf conns (subrating_activity_listener cfg errOf conns ev s).2.1
          (Step.elapse d)).current_tier = Tier.TIER_IDLE) := by
  have heq := listener_idle_eq cfg errOf conns s ev hev
  have hstate := subrate_idle_state cfg errOf conns s
  have hceq : Tier.TIER_IDLE = (cancel_dormant s).current_tier := by
    simp [cancel_dormant, hs]
  have heff : (subrate_idle cfg errOf conns s).2 = [] := by
    show (set_tier cfg errOf conns Tier.TIER_IDLE (cancel_dormant s)).2 = []
    rw [set_tier_eq cfg errOf conns Tier.TIER_IDLE (cancel_dormant s) hceq]
  constructor
  · rw [heq, hstate, heff]
  · intro d hd
    have hmid : (subrating_activity_listener cfg errOf conns ev s).2.1 =
        { current_tier := Tier.TIER_IDLE, dormant_timer := some cfg.dormant_delay_ms } := by
      rw [heq, hstate]
    rw [hmid, step_elapse_small cfg errOf conns _ cfg.dormant_delay_ms d rfl hd]

/-- Witness for C10: in the IDLE tier, a repeated IDLE event emits no effects
and re-arms the timer for the full delay. -/
theorem C10_repeated_idle_rearms_witness :
    subrating_activity_listener testCfg testErr0 testConns (some ZMK_ACTIVITY_IDLE)
        testState =
      (0, { current_tier := Tier.TIER_IDLE,
            dormant_timer := some testCfg.dormant_delay_ms }, []) :=
  (C10_repeated_idle_rearms testCfg testErr0 testConns testState
      (some ZMK_ACTIVITY_IDLE) rfl (Or.inl rfl)).1

end Subrating
